import Mathlib

/-!
Shallow embedding of the Earth Class Mail MCP server (`src/index.ts`):
the data model, the API client's pure parts (error-message selection,
endpoint/query construction), the response shapers (`summarizePiece`,
media-URL redaction, piece-content assembly) and the tool dispatcher.
JavaScript numbers that occur here are integers, modelled as `Int`;
JavaScript truthiness of `x || d` on numbers and strings is modelled
explicitly (`jsOrInt`, `jsOrStr`).
-/

namespace ECM

/-- JS `n || d` for a possibly-undefined number `n`: `undefined` and `0` are
falsy, every other integer is truthy. -/
def jsOrInt (v : Option Int) (d : Int) : Int :=
  match v with
  | none => d
  | some n => if n = 0 then d else n

/-- JS `s || d` for a possibly-undefined string `s`: `undefined` and `""` are
falsy, every other string is truthy. -/
def jsOrStr (v : Option String) (d : String) : String :=
  match v with
  | none => d
  | some s => if s = "" then d else s

/-- Media item of a mail piece (`MailPiece.media` array elements). -/
structure MediaItem where
  url : String
  content_type : String
  tags : List String
  deriving Repr, DecidableEq

/-- The field `carrier?: { name: string; class: string }`. -/
structure Carrier where
  name : String
  «class» : String
  deriving Repr, DecidableEq

/-- The field `sender?: { name: string; address?: string }`. -/
structure Sender where
  name : String
  address : Option String
  deriving Repr, DecidableEq

/-- The field `recipient?: { id: number; name: string }`. -/
structure RecipientRef where
  id : Int
  name : String
  deriving Repr, DecidableEq

/-- The `MailPiece` interface. -/
structure MailPiece where
  id : Int
  created_at : String
  received_at : String
  inbox_id : Int
  barcode : String
  piece_type : String
  piece_sub_type : String
  attributes : List String
  available_actions : List String
  carrier : Option Carrier
  sender : Option Sender
  recipient : Option RecipientRef
  page_count_actual : Option Int
  weight_in_ounces : Option Int
  media : Option (List MediaItem)
  operation_status : Option String
  operation_action : Option String
  ocr_data : Option String
  deriving Repr, DecidableEq

/-- The `User` interface. -/
structure User where
  id : Int
  email : String
  first_name : String
  last_name : String
  username : String
  deriving Repr, DecidableEq

/-- The `piece_counts` of an inbox. -/
structure PieceCounts where
  total_piece_count : Int
  unread_piece_count : Int
  scanned_piece_count : Int
  unscanned_piece_count : Int
  deriving Repr, DecidableEq

/-- The `account` of an inbox. -/
structure Account where
  id : Int
  name : String
  account_status : String
  deriving Repr, DecidableEq

/-- The `Inbox` interface. -/
structure Inbox where
  id : Int
  created_at : String
  updated_at : String
  account : Option Account
  piece_counts : PieceCounts
  deriving Repr, DecidableEq

/-- The `piece_counts` of a recipient. -/
structure RecipientCounts where
  total_piece_count : Int
  unread_piece_count : Int
  deriving Repr, DecidableEq

/-- The `Recipient` interface. -/
structure Recipient where
  id : Int
  name : String
  type : String
  ecm_number : String
  piece_counts : RecipientCounts
  deriving Repr, DecidableEq

/-- The paginated collection envelope `ApiResponse<T>` (without the
`error` field, which only matters inside `request` and is modelled there). -/
structure ApiResponse (α : Type) where
  data : Option (List α)
  current_page : Option Int
  last_page : Option Int
  total : Option Int
  deriving Repr, DecidableEq

/-- The object literal built by `summarizePiece`. -/
structure PieceSummary where
  id : Int
  received_at : String
  piece_type : String
  piece_sub_type : String
  sender : String
  recipient : String
  attributes : List String
  available_actions : List String
  page_count : Option Int
  has_media : Bool
  operation_status : Option String
  deriving Repr, DecidableEq

/-- The function `summarizePiece` (src/index.ts:83-97): `sender: piece.sender?.name || "Unknown"`,
`recipient: piece.recipient?.name || "Unknown"`,
`has_media: (piece.media?.length || 0) > 0`. -/
def summarizePiece (piece : MailPiece) : PieceSummary :=
  { id := piece.id
    received_at := piece.received_at
    piece_type := piece.piece_type
    piece_sub_type := piece.piece_sub_type
    sender := jsOrStr (piece.sender.map (·.name)) "Unknown"
    recipient := jsOrStr (piece.recipient.map (·.name)) "Unknown"
    attributes := piece.attributes
    available_actions := piece.available_actions
    page_count := piece.page_count_actual
    has_media := jsOrInt (piece.media.map (fun l => (l.length : Int))) 0 > 0
    operation_status := piece.operation_status }

/-! ## The client's `request` error path (src/index.ts:106-123) -/

/-- A JSON value, as returned by `response.json()`. -/
inductive Json where
  | null
  | bool (b : Bool)
  | num (n : Int)
  | str (s : String)
  | arr (elems : List Json)
  | obj (fields : List (String × Json))
  deriving Repr

/-- JS property read `v.k` on a JSON value: reading a property of `null`
throws a `TypeError`; on an object it yields the field (or `undefined`,
modelled `none`); on any other primitive or array it yields `undefined`
(none of the properties named here exist on those prototypes). -/
def jsGetField (v : Json) (k : String) : Except Unit (Option Json) :=
  match v with
  | .null => .error ()
  | .obj fields => .ok (fields.lookup k)
  | _ => .ok none

/-- JS optional-chained read `v?.k` on a possibly-undefined value:
`undefined` or `null` short-circuit to `undefined`; otherwise a plain
(non-throwing, since `v` is not null) property read. -/
def jsOptField (v : Option Json) (k : String) : Option Json :=
  match v with
  | none => none
  | some .null => none
  | some (.obj fields) => fields.lookup k
  | some _ => none

/-- JS truthiness of a possibly-undefined JSON value. -/
def jsTruthy (v : Option Json) : Bool :=
  match v with
  | none => false
  | some .null => false
  | some (.bool b) => b
  | some (.num n) => n != 0
  | some (.str s) => s != ""
  | some (.arr _) => true
  | some (.obj _) => true

/-- JS `String(v)` on a JSON value (as used by `new Error(v)` for a
truthy non-string `v`); array stringification is `join(",")`, which maps
`null` elements to the empty string. -/
def jsToString (v : Json) : String :=
  match v with
  | .null => "null"
  | .bool b => if b then "true" else "false"
  | .num n => toString n
  | .str s => s
  | .arr elems => String.intercalate ","
      (elems.attach.map fun e =>
        match e with
        | ⟨.null, _⟩ => ""
        | ⟨j, _⟩ => jsToString j)
  | .obj _ => "[object Object]"

/-- What the `request` helper throws on a non-2xx response. -/
inductive Thrown where
  /-- Thrown when `error.error` was read on a JSON `null` body: a `TypeError`, not the
  constructed `Error`. -/
  | typeError
  /-- Thrown as `new Error(msg)` with the given message. -/
  | error (msg : String)
  deriving Repr, DecidableEq

/-- The fallback message `` `API error: ${response.status}` ``. -/
def apiFallback (status : Int) : String := "API error: " ++ toString status

/-- The non-2xx branch of `request` (src/index.ts:117-120): `body` is the
result of `response.json()` (`none` when the body is not valid JSON, in
which case `.catch(() => ({}))` substitutes `{}`); then
`throw new Error(error.error?.message || `API error: ${status}`)`. -/
def requestErrThrow (status : Int) (body : Option Json) : Thrown :=
  let e : Json := body.getD (.obj [])
  match jsGetField e "error" with
  | .error () => .typeError
  | .ok inner =>
    let m := jsOptField inner "message"
    if jsTruthy m then .error (jsToString (m.getD .null)) else .error (apiFallback status)

/-! ## `performAction` (src/index.ts:164-185) -/

/-- The action alias table `actionMap`, in source order. -/
def actionMap : List (String × String) :=
  [("move-to-archive", "archive"),
   ("move-to-trash", "trash"),
   ("move-to-inbox", "inbox"),
   ("send-to-cloud", "cloud"),
   ("send-to-email", "email"),
   ("scan", "scan"),
   ("shred", "shred"),
   ("ship", "ship"),
   ("archive", "archive"),
   ("trash", "trash"),
   ("inbox", "inbox")]

/-- The own properties of `Object.prototype`, all inherited by the plain
object literal `actionMap` and all truthy (eleven native functions plus
the `__proto__` accessor). -/
def objectPrototypeProps : List String :=
  ["constructor", "hasOwnProperty", "isPrototypeOf", "propertyIsEnumerable",
   "toLocaleString", "toString", "valueOf", "__proto__",
   "__defineGetter__", "__defineSetter__", "__lookupGetter__", "__lookupSetter__"]

/-- How the inherited `Object.prototype` property named `k` stringifies
inside the path template literal: the native methods print in Node's
`function name() \x7b [native code] \x7d` form (the `constructor`
property is the `Object` function itself, so it prints under that name),
and `__proto__` evaluates to `Object.prototype`, an ordinary object. -/
def inheritedPropString (k : String) : String :=
  if k = "__proto__" then "[object Object]"
  else if k = "constructor" then "function Object() \x7b [native code] \x7d"
  else "function " ++ k ++ "() \x7b [native code] \x7d"

/-- The line `const endpoint = actionMap[action] || action`: the property
read `actionMap[action]` walks the prototype chain of the plain object
literal, so an own key yields the table's (non-empty, hence truthy)
string value; a name absent from the table but naming an
`Object.prototype` property yields that inherited truthy value, which
the template literal then stringifies; only a name found nowhere on the
chain is `undefined`, falling back to `action` itself. -/
def actionEndpointSegment (action : String) : String :=
  match actionMap.lookup action with
  | some v => if v = "" then action else v
  | none =>
    if action ∈ objectPrototypeProps then inheritedPropString action
    else action

/-- The path `performAction` issues its POST against:
`` `/pieces/${pieceId}/${endpoint}` ``. -/
def performActionPath (pieceId : Int) (action : String) : String :=
  "/pieces/" ++ toString pieceId ++ "/" ++ actionEndpointSegment action

/-! ## `listPieces` (src/index.ts:137-153) and the `ecm_list_pieces` clamp -/

/-- The options object accepted by `listPieces`. -/
structure ListPiecesOptions where
  page : Option Int
  per_page : Option Int
  sort : Option String
  unread_only : Option Bool
  deriving Repr, DecidableEq

/-- The `URLSearchParams` built by `listPieces`, in insertion order; each
`if (options?.x)` guard is JS truthiness (`0`, `""`, `false`, `undefined`
are falsy). -/
def listPiecesParams (o : ListPiecesOptions) : List (String × String) :=
  (match o.page with
   | some p => if p = 0 then [] else [("page", toString p)]
   | none => []) ++
  (match o.per_page with
   | some p => if p = 0 then [] else [("per_page", toString p)]
   | none => []) ++
  (match o.sort with
   | some s => if s = "" then [] else [("sort", s)]
   | none => []) ++
  (match o.unread_only with
   | some b => if b then [("attributes[]", "unread")] else []
   | none => [])

/-- The clamp `const perPage = Math.min((args?.per_page as number) || 10, 50)`
(src/index.ts:399). -/
def effectivePerPage (per_page : Option Int) : Int :=
  min (jsOrInt per_page 10) 50

/-- The arguments a tool call may carry (the untyped `args` bag, with the
fields the handlers read, each possibly absent). -/
structure Args where
  inbox_id : Option Int := none
  piece_id : Option Int := none
  page : Option Int := none
  per_page : Option Int := none
  unread_only : Option Bool := none
  include_media : Option Bool := none
  include_ocr : Option Bool := none
  action : Option String := none
  deriving Repr, DecidableEq

/-- The options object the `ecm_list_pieces` handler passes to
`client.listPieces` (src/index.ts:400-404): `page`, the clamped
`per_page`, `unread_only`; no `sort` key. -/
def listPiecesCallOpts (args : Args) : ListPiecesOptions :=
  { page := args.page
    per_page := some (effectivePerPage args.per_page)
    sort := none
    unread_only := args.unread_only }

/-! ## `ecm_get_piece` media-URL redaction (src/index.ts:424-458) -/

/-- The fixed placeholder substituted for media URLs. -/
def urlPlaceholder : String := "[URL available - set include_media=true to see]"

/-- The piece value returned by the `ecm_get_piece` handler:
`const includeMedia = args?.include_media as boolean;
if (!includeMedia && piece.media) { ... map each media item to
{content_type, tags, url: placeholder}, spread the rest of the piece ... }`
(an `undefined` or `false` flag is falsy; a present `media` array is
truthy even when empty). -/
def getPieceShaped (include_media : Option Bool) (piece : MailPiece) : MailPiece :=
  if include_media ≠ some true ∧ piece.media.isSome then
    { piece with
      media := piece.media.map fun l =>
        l.map fun m => { content_type := m.content_type, tags := m.tags, url := urlPlaceholder } }
  else
    piece

/-! ## `ecm_get_piece_content` assembly (src/index.ts:487-535) -/

/-- A content block of a tool result. `jsonText p` stands for the block
`{type: "text", text: JSON.stringify(p, null, 2)}` holding the
pretty-printed JSON of the structured payload `p` (serialization itself
carries no logic and is not re-modelled); `text` and `image` are the
literal text and image blocks. -/
inductive Block (π : Type) where
  | text (s : String)
  | jsonText (payload : π)
  | image (data : String) (mimeType : String)
  deriving Repr, DecidableEq

/-- JS string interpolation of a possibly-undefined number
(`` `${piece.page_count_actual}` `` prints `undefined` when absent). -/
def jsShowOptInt (v : Option Int) : String :=
  match v with
  | none => "undefined"
  | some n => toString n

/-- The info header text (src/index.ts:496-499), with
`` `${piece.page_count_actual || 0}` ``. -/
def pieceContentHeader (piece : MailPiece) : String :=
  "Mail piece " ++ toString piece.id ++ ": " ++ toString (jsOrInt piece.page_count_actual 0) ++
  " scanned pages\nNote: ECM API only provides envelope images. Scanned document pages are only available via OCR text or send-to-email action."

/-- The blocks contributed by one media item in the fetch loop
(src/index.ts:511-531): on success, a caption text block and an image
block when the content type starts with `image/`, nothing otherwise; on
failure, the inline failure text block. `fetch` models
`client.fetchMediaContent`, returning base64 data and content type or
the thrown error's message. -/
def mediaItemBlocks (π : Type) (fetch : String → Except String (String × String))
    (m : MediaItem) : List (Block π) :=
  match fetch m.url with
  | .ok (data, contentType) =>
    if contentType.startsWith "image/" then
      [.text ("\n--- Envelope Image (" ++ String.intercalate ", " m.tags ++ ") ---"),
       .image data contentType]
    else []
  | .error e => [.text ("Failed to fetch envelope image: " ++ e)]

/-- The OCR text block (src/index.ts:502-507), pushed when `includeOcr`
holds and `piece.ocr_data` is truthy (a non-empty string). -/
def ocrTextBlocks (π : Type) (piece : MailPiece) (includeOcr : Bool) : List (Block π) :=
  match piece.ocr_data with
  | some ocr =>
    if includeOcr ∧ ocr ≠ "" then
      [Block.text ("\n--- OCR Text (" ++ jsShowOptInt piece.page_count_actual ++ " pages) ---\n" ++ ocr)]
    else []
  | none => []

/-- The full `contentItems` list built by the `ecm_get_piece_content`
handler: header, then the OCR text block, then the per-media blocks when
the media array is present and non-empty. -/
def pieceContentItems (π : Type) (piece : MailPiece) (includeOcr : Bool)
    (fetch : String → Except String (String × String)) : List (Block π) :=
  [Block.text (pieceContentHeader piece)] ++
  ocrTextBlocks π piece includeOcr ++
  (match piece.media with
   | some l => if l.length > 0 then l.flatMap (mediaItemBlocks π fetch) else []
   | none => [])

/-! ## The tool dispatcher (src/index.ts:356-559) -/

/-- The structured payloads the handlers serialize as pretty-printed JSON
text blocks. `piecesSummary` is the `summarized` object of
`ecm_list_pieces` (src/index.ts:407-412). -/
inductive OutPayload where
  | user (u : User)
  | inboxes (r : ApiResponse Inbox)
  | inbox (i : Inbox)
  | piecesSummary (current_page last_page total : Option Int)
      (data : Option (List PieceSummary))
  | piece (p : MailPiece)
  | recipients (r : ApiResponse Recipient)
  | actionResult (j : Json)
  deriving Repr

/-- A tool-call result: content blocks plus the `isError` flag (absent in
the source's success payloads, i.e. `false`). -/
structure ToolResult where
  content : List (Block OutPayload)
  isError : Bool := false
  deriving Repr

/-- The remote-facing operations of `EarthClassMailClient`, as oracles:
each call either returns a decoded value or throws with a message
(`Except.error`). Arguments the dispatcher extracts from the untyped bag
may be `undefined`, hence the `Option` parameters. -/
structure ClientEnv where
  getUser : Except String User
  listInboxes : Except String (ApiResponse Inbox)
  getInbox : Option Int → Except String Inbox
  listPieces : Option Int → ListPiecesOptions → Except String (ApiResponse MailPiece)
  getPiece : Option Int → Except String MailPiece
  listRecipients : Option Int → Except String (ApiResponse Recipient)
  performAction : Option Int → Option String → Except String Json
  fetchMediaContent : String → Except String (String × String)

/-- A single pretty-printed-JSON text result. -/
def jsonResult (p : OutPayload) : ToolResult :=
  { content := [Block.jsonText p] }

/-- The names of the tools in the `TOOLS` catalog, in source order. -/
def toolNames : List String :=
  ["ecm_get_user", "ecm_list_inboxes", "ecm_get_inbox", "ecm_list_pieces",
   "ecm_get_piece", "ecm_list_recipients", "ecm_perform_action",
   "ecm_get_piece_content"]

/-- The body of the `CallToolRequestSchema` handler's `try` block: the
`switch` over the tool name. Returns `Except.error` exactly where the
source lets an exception propagate to the `catch`. -/
def dispatchTool (env : ClientEnv) (name : String) (args : Args) :
    Except String ToolResult :=
  if name = "ecm_get_user" then do
    let user ← env.getUser
    pure (jsonResult (.user user))
  else if name = "ecm_list_inboxes" then do
    let inboxes ← env.listInboxes
    pure (jsonResult (.inboxes inboxes))
  else if name = "ecm_get_inbox" then do
    let inbox ← env.getInbox args.inbox_id
    pure (jsonResult (.inbox inbox))
  else if name = "ecm_list_pieces" then do
    let pieces ← env.listPieces args.inbox_id (listPiecesCallOpts args)
    pure (jsonResult (.piecesSummary pieces.current_page pieces.last_page pieces.total
      (pieces.data.map fun l => l.map summarizePiece)))
  else if name = "ecm_get_piece" then do
    let piece ← env.getPiece args.piece_id
    pure (jsonResult (.piece (getPieceShaped args.include_media piece)))
  else if name = "ecm_list_recipients" then do
    let recipients ← env.listRecipients args.inbox_id
    pure (jsonResult (.recipients recipients))
  else if name = "ecm_perform_action" then do
    let result ← env.performAction args.piece_id args.action
    pure (jsonResult (.actionResult result))
  else if name = "ecm_get_piece_content" then do
    let piece ← env.getPiece args.piece_id
    pure { content := (pieceContentItems OutPayload piece (args.include_ocr ≠ some false)
      env.fetchMediaContent) }
  else
    pure { content := [Block.text ("Unknown tool: " ++ name)], isError := true }

/-- The full `CallToolRequestSchema` handler: the `try`/`catch` around the
switch, converting any thrown error into an error-flagged text block
`` `Error: ${error.message}` ``. -/
def handleCallTool (env : ClientEnv) (name : String) (args : Args) : ToolResult :=
  match dispatchTool env name args with
  | .ok result => result
  | .error e => { content := [Block.text ("Error: " ++ e)], isError := true }

/-! ## Mutation model for the shapers

`summarizePiece` and the `ecm_get_piece` redaction branch build fresh
object literals and fresh arrays (`{...piece, media: piece.media.map(...)}`)
and contain no property assignment. To state that as a theorem rather
than by construction, the two shapers are re-run over an explicit object
heap in which every JS object-field write would be a store update: mail
pieces and their media items are heap objects, a piece's `media` array
holds references, and allocation is the only way the heap changes. -/

/-- A mail piece as a heap object: scalar fields inline, `media` as a
list of references to media-item objects. -/
structure HPiece where
  id : Int
  created_at : String
  received_at : String
  inbox_id : Int
  barcode : String
  piece_type : String
  piece_sub_type : String
  attributes : List String
  available_actions : List String
  carrier : Option Carrier
  sender : Option Sender
  recipient : Option RecipientRef
  page_count_actual : Option Int
  weight_in_ounces : Option Int
  media : Option (List Nat)
  operation_status : Option String
  operation_action : Option String
  ocr_data : Option String
  deriving Repr, DecidableEq

/-- A heap object: a media item, a mail piece, or a summary literal. -/
inductive HObj where
  | media (m : MediaItem)
  | piece (p : HPiece)
  | summary (s : PieceSummary)
  deriving Repr, DecidableEq

/-- The object heap: allocation counter and store. -/
structure Heap where
  next : Nat
  objs : Nat → Option HObj

/-- Allocate a fresh object, returning the new heap and the reference. -/
def Heap.alloc (h : Heap) (o : HObj) : Heap × Nat :=
  ({ next := h.next + 1,
     objs := fun i => if i = h.next then some o else h.objs i }, h.next)

/-- The function `summarizePiece` run on the heap: read the piece's fields (for
`has_media`, only the length of the `media` reference array), allocate
the summary object literal. A reference that does not hold a piece
reads as failure (`none`) and writes nothing. -/
def summarizeOnHeap (h : Heap) (pid : Nat) : Heap × Option Nat :=
  match h.objs pid with
  | some (.piece p) =>
    let s : PieceSummary :=
      { id := p.id
        received_at := p.received_at
        piece_type := p.piece_type
        piece_sub_type := p.piece_sub_type
        sender := jsOrStr (p.sender.map (·.name)) "Unknown"
        recipient := jsOrStr (p.recipient.map (·.name)) "Unknown"
        attributes := p.attributes
        available_actions := p.available_actions
        page_count := p.page_count_actual
        has_media := jsOrInt (p.media.map fun l => (l.length : Int)) 0 > 0
        operation_status := p.operation_status }
    let a := h.alloc (.summary s)
    (a.1, some a.2)
  | _ => (h, none)

/-- The map `piece.media.map(m => ({content_type: m.content_type, tags: m.tags,
url: "[...]"}))` on the heap: read each referenced media item, allocate a
fresh redacted copy. A dangling reference (impossible for a heap that
actually represents a fetched piece) reads as failure and contributes
and writes nothing. -/
def redactMediaOnHeap (h : Heap) (refs : List Nat) : Heap × List Nat :=
  match refs with
  | [] => (h, [])
  | r :: rest =>
    match h.objs r with
    | some (.media m) =>
      let a := h.alloc
        (.media { content_type := m.content_type, tags := m.tags, url := urlPlaceholder })
      let b := redactMediaOnHeap a.1 rest
      (b.1, a.2 :: b.2)
    | _ => redactMediaOnHeap h rest

/-- The `ecm_get_piece` redaction branch on the heap: when the flag is
falsy and the piece has a media array, allocate redacted media copies
and a fresh piece object (`{...piece, media: ...}`); otherwise return
the original reference. -/
def redactPieceOnHeap (h : Heap) (include_media : Option Bool) (pid : Nat) :
    Heap × Option Nat :=
  match h.objs pid with
  | some (.piece p) =>
    if include_media ≠ some true ∧ p.media.isSome then
      let a := redactMediaOnHeap h (p.media.getD [])
      let b := a.1.alloc (.piece { p with media := some a.2 })
      (b.1, some b.2)
    else (h, some pid)
  | _ => (h, none)

/-! ## Theorems -/

/-- C1: for every `ecm_list_pieces` call, a caller-supplied `per_page`
greater than 50 yields an effective page size of exactly 50 passed to the
client and sent upstream in the query parameters, and an omitted
`per_page` yields 10. -/
theorem listPieces_perPage_clamped (args : Args) (n : Int) :
    (args.per_page = some n → 50 < n →
      (listPiecesCallOpts args).per_page = some 50 ∧
      ("per_page", "50") ∈ listPiecesParams (listPiecesCallOpts args)) ∧
    (args.per_page = none →
      (listPiecesCallOpts args).per_page = some 10 ∧
      ("per_page", "10") ∈ listPiecesParams (listPiecesCallOpts args)) := by
  constructor
  · intro h hn
    have hv : effectivePerPage args.per_page = 50 := by
      simp [effectivePerPage, jsOrInt, h]
      omega
    refine ⟨by simp [listPiecesCallOpts, hv], ?_⟩
    have h50 : ("50" : String) = toString (50 : Int) := by decide
    simp [listPiecesParams, listPiecesCallOpts, hv, h50]
  · intro h
    have hv : effectivePerPage args.per_page = 10 := by
      simp [effectivePerPage, jsOrInt, h]
    refine ⟨by simp [listPiecesCallOpts, hv], ?_⟩
    have h10 : ("10" : String) = toString (10 : Int) := by decide
    simp [listPiecesParams, listPiecesCallOpts, hv, h10]

/-- Witness for C1: `per_page = 99` is clamped to 50, and an absent
`per_page` becomes 10. -/
theorem listPieces_perPage_clamped_witness :
    (listPiecesCallOpts { per_page := some 99 }).per_page = some 50 ∧
    (listPiecesCallOpts { per_page := none }).per_page = some 10 :=
  ⟨((listPieces_perPage_clamped { per_page := some 99 } 99).1 rfl (by norm_num)).1,
   ((listPieces_perPage_clamped { per_page := none } 0).2 rfl).1⟩

/-- C10: the page-size policy bounds only above: `per_page = 0` (the only
falsy number in the integer model) is treated as absent and becomes 10,
while a negative `per_page` passes `Math.min(-, 50)` unchanged and is
sent upstream verbatim in the query parameters. -/
theorem listPieces_perPage_negative_passthrough (args : Args) (n : Int) :
    (args.per_page = some 0 →
      (listPiecesCallOpts args).per_page = some 10 ∧
      ("per_page", "10") ∈ listPiecesParams (listPiecesCallOpts args)) ∧
    (args.per_page = some n → n < 0 →
      (listPiecesCallOpts args).per_page = some n ∧
      ("per_page", toString n) ∈ listPiecesParams (listPiecesCallOpts args)) := by
  constructor
  · intro h
    have hv : effectivePerPage args.per_page = 10 := by
      simp [effectivePerPage, jsOrInt, h]
    have h10 : ("10" : String) = toString (10 : Int) := by decide
    exact ⟨by simp [listPiecesCallOpts, hv],
      by simp [listPiecesParams, listPiecesCallOpts, hv, h10]⟩
  · intro h hn
    have hv : effectivePerPage args.per_page = n := by
      simp [effectivePerPage, jsOrInt, h]
      omega
    refine ⟨by simp [listPiecesCallOpts, hv], ?_⟩
    have hne : n ≠ 0 := by omega
    simp [listPiecesParams, listPiecesCallOpts, hv, hne]

/-- Witness for C10: `per_page = 0` becomes 10; `per_page = -5` is passed
through as `-5`. -/
theorem listPieces_perPage_negative_passthrough_witness :
    (listPiecesCallOpts { per_page := some 0 }).per_page = some 10 ∧
    (listPiecesCallOpts { per_page := some (-5) }).per_page = some (-5) ∧
    ("per_page", "-5") ∈ listPiecesParams (listPiecesCallOpts { per_page := some (-5) }) :=
  ⟨((listPieces_perPage_negative_passthrough { per_page := some 0 } 0).1 rfl).1,
   ((listPieces_perPage_negative_passthrough { per_page := some (-5) } (-5)).2 rfl
     (by norm_num)).1,
   ((listPieces_perPage_negative_passthrough { per_page := some (-5) } (-5)).2 rfl
     (by norm_num)).2⟩

/-- Counterexample for C3: `"toString"` is absent from the alias table,
yet it is not appended verbatim: `actionMap["toString"]` finds the
inherited truthy `Object.prototype.toString` function, which the path
template stringifies. -/
theorem performAction_prototype_key_cex :
    "toString" ∉ actionMap.map Prod.fst ∧
    actionEndpointSegment "toString" = "function toString() \x7b [native code] \x7d" ∧
    performActionPath 42 "toString" ≠ "/pieces/42/toString" :=
  ⟨by decide, rfl, by decide⟩

/-- C3 (amended): a name that is a key of the alias table is replaced by
its aliased path segment; a name absent from the table **and not naming
an inherited `Object.prototype` property** is appended verbatim; a name
absent from the table that does name an `Object.prototype` property is
replaced by the stringification of that inherited value. -/
theorem performAction_alias_resolution (a seg : String) (pid : Int) :
    ((a, seg) ∈ actionMap →
      performActionPath pid a = "/pieces/" ++ toString pid ++ "/" ++ seg) ∧
    (a ∉ actionMap.map Prod.fst → a ∉ objectPrototypeProps →
      performActionPath pid a = "/pieces/" ++ toString pid ++ "/" ++ a) ∧
    (a ∉ actionMap.map Prod.fst → a ∈ objectPrototypeProps →
      performActionPath pid a =
        "/pieces/" ++ toString pid ++ "/" ++ inheritedPropString a) := by
  refine ⟨?_, ?_, ?_⟩
  · intro h
    fin_cases h <;> rfl
  · intro h hp
    simp [actionMap, List.map] at h
    obtain ⟨h1, h2, h3, h4, h5, h6, h7, h8, h9, h10, h11⟩ := h
    have b1 : (a == "move-to-archive") = false := beq_eq_false_iff_ne.mpr h1
    have b2 : (a == "move-to-trash") = false := beq_eq_false_iff_ne.mpr h2
    have b3 : (a == "move-to-inbox") = false := beq_eq_false_iff_ne.mpr h3
    have b4 : (a == "send-to-cloud") = false := beq_eq_false_iff_ne.mpr h4
    have b5 : (a == "send-to-email") = false := beq_eq_false_iff_ne.mpr h5
    have b6 : (a == "scan") = false := beq_eq_false_iff_ne.mpr h6
    have b7 : (a == "shred") = false := beq_eq_false_iff_ne.mpr h7
    have b8 : (a == "ship") = false := beq_eq_false_iff_ne.mpr h8
    have b9 : (a == "archive") = false := beq_eq_false_iff_ne.mpr h9
    have b10 : (a == "trash") = false := beq_eq_false_iff_ne.mpr h10
    have b11 : (a == "inbox") = false := beq_eq_false_iff_ne.mpr h11
    simp [performActionPath, actionEndpointSegment, actionMap, List.lookup,
      b1, b2, b3, b4, b5, b6, b7, b8, b9, b10, b11, hp]
  · intro h hp
    simp [actionMap, List.map] at h
    obtain ⟨h1, h2, h3, h4, h5, h6, h7, h8, h9, h10, h11⟩ := h
    have b1 : (a == "move-to-archive") = false := beq_eq_false_iff_ne.mpr h1
    have b2 : (a == "move-to-trash") = false := beq_eq_false_iff_ne.mpr h2
    have b3 : (a == "move-to-inbox") = false := beq_eq_false_iff_ne.mpr h3
    have b4 : (a == "send-to-cloud") = false := beq_eq_false_iff_ne.mpr h4
    have b5 : (a == "send-to-email") = false := beq_eq_false_iff_ne.mpr h5
    have b6 : (a == "scan") = false := beq_eq_false_iff_ne.mpr h6
    have b7 : (a == "shred") = false := beq_eq_false_iff_ne.mpr h7
    have b8 : (a == "ship") = false := beq_eq_false_iff_ne.mpr h8
    have b9 : (a == "archive") = false := beq_eq_false_iff_ne.mpr h9
    have b10 : (a == "trash") = false := beq_eq_false_iff_ne.mpr h10
    have b11 : (a == "inbox") = false := beq_eq_false_iff_ne.mpr h11
    simp [performActionPath, actionEndpointSegment, actionMap, List.lookup,
      b1, b2, b3, b4, b5, b6, b7, b8, b9, b10, b11, hp]

/-- Witness for C3 (amended): `"move-to-archive"` is aliased to
`"archive"`; the name `"open"`, on neither the table nor
`Object.prototype`, passes through verbatim; the prototype name
`"hasOwnProperty"` is replaced by the inherited function's
stringification. -/
theorem performAction_alias_resolution_witness :
    performActionPath 42 "move-to-archive" = "/pieces/42/archive" ∧
    performActionPath 42 "open" = "/pieces/42/open" ∧
    performActionPath 42 "hasOwnProperty" =
      "/pieces/42/" ++ inheritedPropString "hasOwnProperty" :=
  ⟨(performAction_alias_resolution "move-to-archive" "archive" 42).1 (by decide),
   (performAction_alias_resolution "open" "" 42).2.1 (by decide) (by decide),
   (performAction_alias_resolution "hasOwnProperty" "" 42).2.2 (by decide) (by decide)⟩

/-- C5: `ecm_get_piece` with a falsy `include_media` flag on a piece
carrying a media list replaces every media item's `url` by the fixed
placeholder, keeping `content_type` and `tags`; with `include_media=true`
the piece (and in particular every original URL) is returned unchanged. -/
theorem getPiece_media_url_redaction (p : MailPiece) (l : List MediaItem) (b : Option Bool) :
    (b ≠ some true → p.media = some l →
      getPieceShaped b p =
        { p with media := some (l.map fun m =>
            { url := urlPlaceholder, content_type := m.content_type, tags := m.tags }) }) ∧
    getPieceShaped (some true) p = p := by
  constructor
  · intro hb hm
    rw [getPieceShaped, if_pos ⟨hb, by rw [hm]; rfl⟩, hm]
    rfl
  · rw [getPieceShaped, if_neg]
    simp

/-- Witness for C5: a concrete piece with one media item has its URL
redacted when the flag is absent. -/
theorem getPiece_media_url_redaction_witness :
    getPieceShaped none
      { id := 7, created_at := "c", received_at := "r", inbox_id := 1, barcode := "b",
        piece_type := "letter", piece_sub_type := "standard", attributes := [],
        available_actions := [], carrier := none, sender := none, recipient := none,
        page_count_actual := some 2, weight_in_ounces := none,
        media := some [{ url := "https://signed.example/x", content_type := "image/jpeg",
                         tags := ["envelope"] }],
        operation_status := none, operation_action := none, ocr_data := none } =
      { id := 7, created_at := "c", received_at := "r", inbox_id := 1, barcode := "b",
        piece_type := "letter", piece_sub_type := "standard", attributes := [],
        available_actions := [], carrier := none, sender := none, recipient := none,
        page_count_actual := some 2, weight_in_ounces := none,
        media := some [{ url := urlPlaceholder, content_type := "image/jpeg",
                         tags := ["envelope"] }],
        operation_status := none, operation_action := none, ocr_data := none } :=
  (getPiece_media_url_redaction _
      [{ url := "https://signed.example/x", content_type := "image/jpeg",
         tags := ["envelope"] }] none).1 (by simp) rfl

/-- A concrete piece whose sender is present but has an empty name. -/
def emptyNameSenderPiece : MailPiece :=
  { id := 1, created_at := "c", received_at := "r", inbox_id := 2, barcode := "b",
    piece_type := "letter", piece_sub_type := "s", attributes := [],
    available_actions := [], carrier := none,
    sender := some { name := "", address := none }, recipient := none,
    page_count_actual := none, weight_in_ounces := none, media := none,
    operation_status := none, operation_action := none, ocr_data := none }

/-- Counterexample for C4: on a piece whose `sender` is present with the
empty-string name, `summarizePiece` renders `"Unknown"`, not the
corresponding name (`""`): JS `piece.sender?.name || "Unknown"` treats
the empty string as falsy. -/
theorem summarizePiece_empty_sender_name_cex :
    emptyNameSenderPiece.sender = some { name := "", address := none } ∧
    (summarizePiece emptyNameSenderPiece).sender = "Unknown" ∧
    ("Unknown" : String) ≠ "" :=
  ⟨rfl, rfl, by decide⟩

/-- C4 (amended): `summarizePiece` always carries over `id`,
`received_at` and `piece_type`; `sender`/`recipient` render as the
corresponding name, or `"Unknown"` when the field is absent **or the name
is the empty string**; `has_media` is true exactly when the media list is
present and non-empty; and the summary is independent of every media
item's `url` and of `ocr_data` (so it includes neither). -/
theorem summarizePiece_projection (p : MailPiece) (q : Option String)
    (f : MediaItem → String) :
    (summarizePiece p).id = p.id ∧
    (summarizePiece p).received_at = p.received_at ∧
    (summarizePiece p).piece_type = p.piece_type ∧
    ((summarizePiece p).sender =
      match p.sender with
      | none => "Unknown"
      | some s => if s.name = "" then "Unknown" else s.name) ∧
    ((summarizePiece p).recipient =
      match p.recipient with
      | none => "Unknown"
      | some r => if r.name = "" then "Unknown" else r.name) ∧
    ((summarizePiece p).has_media = true ↔ p.media.getD [] ≠ []) ∧
    summarizePiece
      { p with
        media := p.media.map fun l => l.map fun m => { m with url := f m },
        ocr_data := q } = summarizePiece p := by
  refine ⟨rfl, rfl, rfl, ?_, ?_, ?_, ?_⟩
  · cases hs : p.sender <;> simp [summarizePiece, jsOrStr, hs]
  · cases hr : p.recipient <;> simp [summarizePiece, jsOrStr, hr]
  · cases hm : p.media with
    | none => simp [summarizePiece, jsOrInt, hm]
    | some l =>
      rcases l with _ | ⟨x, xs⟩ <;> simp [summarizePiece, jsOrInt, hm]
      rw [if_neg (by omega)]
      omega
  · cases hm : p.media <;>
      simp [summarizePiece, jsOrStr, jsOrInt, hm]

/-- The value of `error.error?.message` for a (non-null) parsed JSON
body, as read by the `request` error branch. -/
def bodyErrMessage (body : Json) : Option Json :=
  match jsGetField body "error" with
  | .error () => none
  | .ok inner => jsOptField inner "message"

/-- For a parsed body other than JSON `null`, the thrown error's message
is `String(error.error?.message)` when that value is truthy, else the
fallback. -/
theorem requestErrThrow_nonNull (status : Int) (body : Json) (h : body ≠ .null) :
    requestErrThrow status (some body) =
      if jsTruthy (bodyErrMessage body) then
        .error (jsToString ((bodyErrMessage body).getD .null))
      else .error (apiFallback status) := by
  cases body <;> simp [requestErrThrow, bodyErrMessage, jsGetField] at h ⊢

/-- Counterexample for C2: a 404 response whose body is the valid JSON
`{"error":{"message":""}}` contains `error.message`, yet the raised
message is the fallback `"API error: 404"`, not the server-supplied
(empty) string: JS `error.error?.message || fallback` treats the empty
string as falsy. -/
theorem request_error_empty_message_cex :
    bodyErrMessage (.obj [("error", .obj [("message", .str "")])]) = some (.str "") ∧
    requestErrThrow 404 (some (.obj [("error", .obj [("message", .str "")])])) =
      .error "API error: 404" ∧
    ("API error: 404" : String) ≠ "" :=
  ⟨rfl, rfl, by decide⟩

/-- C2 (amended): on a non-2xx response, when the body is valid JSON
containing a **non-empty** `error.message` string the raised error's
message is that string; when the body is not valid JSON, or is valid
non-null JSON without a truthy `error.message`, it is the fallback
`"API error: N"`. (A body parsing to JSON `null` instead raises a
`TypeError` from the `error.error` property read.) -/
theorem request_error_message_policy (status : Int) (body : Json) (s : String) :
    (requestErrThrow status none = .error (apiFallback status)) ∧
    (body ≠ .null → bodyErrMessage body = some (.str s) → s ≠ "" →
      requestErrThrow status (some body) = .error s) ∧
    (body ≠ .null → jsTruthy (bodyErrMessage body) = false →
      requestErrThrow status (some body) = .error (apiFallback status)) ∧
    (requestErrThrow status (some .null) = .typeError) := by
  refine ⟨rfl, ?_, ?_, rfl⟩
  · intro hnull hmsg hs
    rw [requestErrThrow_nonNull status body hnull, hmsg]
    simp [jsTruthy, jsToString, hs]
  · intro hnull htruthy
    rw [requestErrThrow_nonNull status body hnull, htruthy]
    simp

/-- Witness for C2 (amended): a 500 response with body
`{"error":{"message":"boom"}}` raises `"boom"`; a 500 response with an
unparseable body raises `"API error: 500"`. -/
theorem request_error_message_policy_witness :
    requestErrThrow 500 (some (.obj [("error", .obj [("message", .str "boom")])])) =
      .error "boom" ∧
    requestErrThrow 500 none = .error (apiFallback 500) :=
  ⟨(request_error_message_policy 500 (.obj [("error", .obj [("message", .str "boom")])])
      "boom").2.1 (fun hc => Json.noConfusion hc) rfl (by decide),
   (request_error_message_policy 500 (.obj []) "").1⟩

/-- C6: in `ecm_get_piece_content`, a failed media fetch contributes
exactly the inline failure text block (no image block) and the remaining
media items are still processed; in particular, for a piece with exactly
one media item whose fetch fails (and no OCR text) the content list is
the info header followed by the failure text block, with no image block
and no exception (the assembly is a total function). -/
theorem getPieceContent_fetch_failure_isolated (p : MailPiece) (l1 l2 : List MediaItem)
    (m : MediaItem) (e : String) (includeOcr : Bool)
    (fetch : String → Except String (String × String)) :
    (p.media = some (l1 ++ m :: l2) → fetch m.url = .error e →
      pieceContentItems OutPayload p includeOcr fetch =
        [Block.text (pieceContentHeader p)] ++ ocrTextBlocks OutPayload p includeOcr ++
        l1.flatMap (mediaItemBlocks OutPayload fetch) ++
        [Block.text ("Failed to fetch envelope image: " ++ e)] ++
        l2.flatMap (mediaItemBlocks OutPayload fetch)) ∧
    (p.media = some [m] → fetch m.url = .error e → p.ocr_data = none →
      pieceContentItems OutPayload p includeOcr fetch =
        [Block.text (pieceContentHeader p),
         Block.text ("Failed to fetch envelope image: " ++ e)]) := by
  constructor
  · intro hm hf
    simp [pieceContentItems, hm, List.flatMap_append, List.flatMap_cons,
      mediaItemBlocks, hf, List.append_assoc]
  · intro hm hf hocr
    simp [pieceContentItems, hm, mediaItemBlocks, hf, ocrTextBlocks, hocr]

/-- A concrete piece with a single media item and no OCR text. -/
def oneMediaPiece : MailPiece :=
  { id := 9, created_at := "c", received_at := "r", inbox_id := 3, barcode := "b",
    piece_type := "letter", piece_sub_type := "s", attributes := [],
    available_actions := [], carrier := none, sender := none, recipient := none,
    page_count_actual := some 1, weight_in_ounces := none,
    media := some [{ url := "https://signed.example/img", content_type := "image/png",
                     tags := ["envelope"] }],
    operation_status := none, operation_action := none, ocr_data := none }

/-- A media fetch that always fails. -/
def alwaysFailFetch : String → Except String (String × String) :=
  fun _ => Except.error "network down"

/-- Witness for C6: the one-media piece with a failing fetch yields
exactly the header and the inline failure text block. -/
theorem getPieceContent_fetch_failure_isolated_witness :
    pieceContentItems OutPayload oneMediaPiece true alwaysFailFetch =
      [Block.text (pieceContentHeader oneMediaPiece),
       Block.text "Failed to fetch envelope image: network down"] :=
  (getPieceContent_fetch_failure_isolated oneMediaPiece [] []
      { url := "https://signed.example/img", content_type := "image/png",
        tags := ["envelope"] } "network down" true alwaysFailFetch).2 rfl rfl rfl

/-- Every client operation throws with message `e`. -/
def envFails (e : String) (env : ClientEnv) : Prop :=
  env.getUser = .error e ∧
  env.listInboxes = .error e ∧
  (∀ i, env.getInbox i = .error e) ∧
  (∀ i o, env.listPieces i o = .error e) ∧
  (∀ i, env.getPiece i = .error e) ∧
  (∀ i, env.listRecipients i = .error e) ∧
  (∀ i a, env.performAction i a = .error e) ∧
  (∀ u, env.fetchMediaContent u = .error e)

/-- The environment in which every client operation throws with message `e`. -/
def throwingEnv (e : String) : ClientEnv :=
  { getUser := .error e
    listInboxes := .error e
    getInbox := fun _ => .error e
    listPieces := fun _ _ => .error e
    getPiece := fun _ => .error e
    listRecipients := fun _ => .error e
    performAction := fun _ _ => .error e
    fetchMediaContent := fun _ => .error e }

/-- C7: for every tool in the catalog, an exception thrown by the client
operation the handler invokes is caught at the dispatcher's call boundary
and converted into a single error-flagged text block carrying the
exception's message; the dispatcher itself returns normally. -/
theorem dispatcher_converts_thrown_errors (env : ClientEnv) (e name : String)
    (args : Args) (hf : envFails e env) (hn : name ∈ toolNames) :
    handleCallTool env name args =
      { content := [Block.text ("Error: " ++ e)], isError := true } := by
  obtain ⟨h1, h2, h3, h4, h5, h6, h7, h8⟩ := hf
  simp only [toolNames, List.mem_cons, List.not_mem_nil, or_false] at hn
  rcases hn with rfl | rfl | rfl | rfl | rfl | rfl | rfl | rfl <;>
    simp [handleCallTool, dispatchTool, h1, h2, h3, h4, h5, h6, h7, h8]

/-- Witness for C7: with every client operation throwing `"boom"`, each
of the eight catalog tools returns the error-flagged `"Error: boom"`
block. -/
theorem dispatcher_converts_thrown_errors_witness :
    handleCallTool (throwingEnv "boom") "ecm_get_user" {} =
      { content := [Block.text "Error: boom"], isError := true } ∧
    handleCallTool (throwingEnv "boom") "ecm_get_piece_content" {} =
      { content := [Block.text "Error: boom"], isError := true } :=
  ⟨dispatcher_converts_thrown_errors (throwingEnv "boom") "boom" "ecm_get_user" {}
      ⟨rfl, rfl, fun _ => rfl, fun _ _ => rfl, fun _ => rfl, fun _ => rfl,
       fun _ _ => rfl, fun _ => rfl⟩ (by decide),
   dispatcher_converts_thrown_errors (throwingEnv "boom") "boom" "ecm_get_piece_content" {}
      ⟨rfl, rfl, fun _ => rfl, fun _ _ => rfl, fun _ => rfl, fun _ => rfl,
       fun _ _ => rfl, fun _ => rfl⟩ (by decide)⟩

/-- C8: a tool name outside the catalog yields an error-flagged content
payload naming the unknown tool; the dispatcher returns it normally
rather than raising. -/
theorem dispatcher_unknown_tool_flagged (env : ClientEnv) (name : String) (args : Args)
    (hn : name ∉ toolNames) :
    handleCallTool env name args =
      { content := [Block.text ("Unknown tool: " ++ name)], isError := true } := by
  simp only [toolNames, List.mem_cons, List.not_mem_nil, or_false, not_or] at hn
  obtain ⟨n1, n2, n3, n4, n5, n6, n7, n8⟩ := hn
  simp [handleCallTool, dispatchTool, n1, n2, n3, n4, n5, n6, n7, n8, pure, Except.pure]

/-- Witness for C8: the unknown name `"bogus"` is reported in an
error-flagged text block. -/
theorem dispatcher_unknown_tool_flagged_witness :
    handleCallTool (throwingEnv "x") "bogus" {} =
      { content := [Block.text "Unknown tool: bogus"], isError := true } :=
  dispatcher_unknown_tool_flagged (throwingEnv "x") "bogus" {} (by decide)

/-- Allocation writes only at the fresh reference: every existing
reference reads as before. -/
theorem Heap.alloc_frame (h : Heap) (o : HObj) (i : Nat) (hi : i < h.next) :
    ((h.alloc o).1).objs i = h.objs i := by
  simp only [Heap.alloc]
  rw [if_neg (by omega)]

/-- Allocation never decreases the allocation counter. -/
theorem Heap.alloc_next_mono (h : Heap) (o : HObj) : h.next ≤ ((h.alloc o).1).next := by
  simp [Heap.alloc]

/-- The media-redaction loop only allocates: the counter grows and every
pre-existing reference reads as before. -/
theorem redactMediaOnHeap_frame (refs : List Nat) :
    ∀ h : Heap, h.next ≤ (redactMediaOnHeap h refs).1.next ∧
      ∀ i, i < h.next → (redactMediaOnHeap h refs).1.objs i = h.objs i := by
  induction refs with
  | nil =>
    intro h
    exact ⟨Nat.le_refl _, fun i _ => rfl⟩
  | cons r rest ih =>
    intro h
    cases hr : h.objs r with
    | none =>
      simpa [redactMediaOnHeap, hr] using ih h
    | some o =>
      cases o with
      | media m =>
        have iha := ih
          (h.alloc (.media { content_type := m.content_type, tags := m.tags, url := urlPlaceholder })).1
        constructor
        · simp only [redactMediaOnHeap, hr]
          exact Nat.le_trans (Heap.alloc_next_mono h _) iha.1
        · intro i hi
          simp only [redactMediaOnHeap, hr]
          rw [iha.2 i (Nat.lt_of_lt_of_le hi (Heap.alloc_next_mono h _)),
            Heap.alloc_frame h _ i hi]
      | piece p =>
        simpa [redactMediaOnHeap, hr] using ih h
      | summary s =>
        simpa [redactMediaOnHeap, hr] using ih h

/-- C9: neither `summarizePiece` nor the `ecm_get_piece` redaction step
mutates anything reachable from the input: run over the explicit object
heap, both only allocate fresh objects, and every pre-existing reference
(the piece, its media items, anything else) reads exactly as before. -/
theorem shapers_never_mutate_source (h : Heap) (pid i : Nat) (b : Option Bool)
    (hi : i < h.next) :
    (summarizeOnHeap h pid).1.objs i = h.objs i ∧
    (redactPieceOnHeap h b pid).1.objs i = h.objs i := by
  constructor
  · cases hp : h.objs pid with
    | none => simp [summarizeOnHeap, hp]
    | some o =>
      cases o with
      | media m => simp [summarizeOnHeap, hp]
      | piece p =>
        simp only [summarizeOnHeap, hp]
        exact Heap.alloc_frame h _ i hi
      | summary s => simp [summarizeOnHeap, hp]
  · cases hp : h.objs pid with
    | none => simp [redactPieceOnHeap, hp]
    | some o =>
      cases o with
      | media m => simp [redactPieceOnHeap, hp]
      | piece p =>
        simp only [redactPieceOnHeap, hp]
        by_cases hg : b ≠ some true ∧ p.media.isSome
        · rw [if_pos hg]
          have hfr := redactMediaOnHeap_frame (p.media.getD []) h
          rw [Heap.alloc_frame _ _ i (Nat.lt_of_lt_of_le hi hfr.1), hfr.2 i hi]
        · rw [if_neg hg]
      | summary s => simp [redactPieceOnHeap, hp]

/-- A one-object heap holding the piece of `oneMediaPiece`'s shape (the
media item inlined at reference 1 would be out of range; the piece's
media array is absent here, which the frame property does not depend
on). -/
def singlePieceHeap : Heap :=
  { next := 1,
    objs := fun i =>
      if i = 0 then
        some (.piece
          { id := 9, created_at := "c", received_at := "r", inbox_id := 3, barcode := "b",
            piece_type := "letter", piece_sub_type := "s", attributes := [],
            available_actions := [], carrier := none, sender := none, recipient := none,
            page_count_actual := some 1, weight_in_ounces := none, media := none,
            operation_status := none, operation_action := none, ocr_data := none })
      else none }

/-- Witness for C9: on a concrete one-object heap, reference 0 reads the
same after summarization and after redaction. -/
theorem shapers_never_mutate_source_witness :
    (summarizeOnHeap singlePieceHeap 0).1.objs 0 = singlePieceHeap.objs 0 ∧
    (redactPieceOnHeap singlePieceHeap none 0).1.objs 0 = singlePieceHeap.objs 0 :=
  shapers_never_mutate_source singlePieceHeap 0 0 none (by decide)

end ECM
